import Mathlib

/-!
Verification of the statistics / configs / workflows routes of the
phantom_monitoring_server repository.

The statistics route file builds Elasticsearch query bodies by raw string
concatenation (`aggregation_by`, `filter_and_aggregate_by`, `type_filter`,
`date_filter`) and flattens the aggregation response into one summary per
requested metric (`handle_response`).  The configs/workflows route files are
CRUD passthroughs whose PUT handlers guard on `error !== 'undefined'`.

The embedding below translates those JavaScript functions into Lean:
JavaScript strings become `String`, the dynamic `metric` query parameter
(undefined / string / array of strings) becomes `QueryParam`, JSON values
flowing through the response flattener become `Json`, and a JavaScript
`TypeError` (property access on `undefined`/`null`) becomes `Option.none`.
-/

/-- Model of a JavaScript/JSON runtime value as it flows through the
response flattener.  `undef` is JavaScript `undefined` (a property that is
absent reads as `undef`; a field set to `undef` is dropped by
`JSON.stringify`, i.e. by `res.json`).  Numbers are modelled as integers:
the only numeric value the flattener ever inspects is the integral hit
count `hits.total`; all other numeric payloads are carried opaquely. -/
inductive Json where
  | undef : Json
  | null : Json
  | num (n : Int) : Json
  | str (s : String) : Json
  | arr (elts : List Json) : Json
  | obj (fields : List (String × Json)) : Json

/-- First-match lookup in a JavaScript object's field list (object literals
and parsed JSON never carry duplicate keys, so first-match agrees with the
JavaScript semantics); a missing key reads as `undefined`. -/
def assoc_find : List (String × Json) → String → Json
  | [], _ => .undef
  | (k, v) :: rest, key => if k = key then v else assoc_find rest key

/-- JavaScript property access `v[key]` for a string key.  Accessing a
property of `undefined` or `null` throws a `TypeError`, modelled as `none`.
On every other value the access yields a value (possibly `undefined`):
objects look the key up, primitives and arrays have none of the string
properties used by this code (`hits`, `total`, `_source`, metric names). -/
def Json.getProp : Json → String → Option Json
  | .undef, _ => none
  | .null, _ => none
  | .num _, _ => some .undef
  | .str _, _ => some .undef
  | .arr _, _ => some .undef
  | .obj fs, k => some (assoc_find fs k)

/-- JavaScript index access `v[i]` for a numeric index: `TypeError` on
`undefined`/`null`; arrays yield the element or `undefined` when out of
range; strings yield the character at `i` as a one-character string or
`undefined`; objects look up the decimal string of `i`; numbers have no
index properties. -/
def Json.getIdx : Json → Nat → Option Json
  | .undef, _ => none
  | .null, _ => none
  | .num _, _ => some .undef
  | .str s, i =>
      some (match s.data.get? i with
            | some c => .str ⟨[c]⟩
            | none => .undef)
  | .arr l, i => some (l.getD i .undef)
  | .obj fs, i => some (assoc_find fs (toString i))

/-- The shapes the `metric` query parameter can take after Express query
parsing: absent (`undefined`), a single string (`?metric=a`), or an array of
strings (`?metric=a&metric=b`). -/
inductive QueryParam where
  | undef : QueryParam
  | str (s : String) : QueryParam
  | arr (l : List String) : QueryParam

/-- Source `is_defined` (statistics route, lines 335-337): a value is
defined iff `typeof` is not `'undefined'`.  Optional string parameters are
modelled as `Option String`, so this is `Option.isSome`. -/
def is_defined (v : Option String) : Bool :=
  v.isSome

/-- `is_defined` applied to the dynamically shaped `metric` parameter. -/
def qp_defined : QueryParam → Bool
  | .undef => false
  | .str _ => true
  | .arr _ => true

/-- The normalisation both `aggregation_by` (lines 405-410) and
`handle_response` (lines 302-307) perform on the `metric` parameter: a
string becomes a one-element array, an array is used as is, and iterating
(`for ... in`) over `undefined` runs zero iterations. -/
def normalize_metric : QueryParam → List String
  | .undef => []
  | .str s => [s]
  | .arr l => l

/-- JavaScript `s.slice(0, -1)` as used on the ASCII query strings built by
`aggregation_by`: drop the final character. -/
def jsSlice0m1 (s : String) : String :=
  ⟨s.data.dropLast⟩

/-- JavaScript `s.slice(1, -1)` as used on `aggregation_by`'s result inside
`filter_and_aggregate_by`: drop the first and the last character. -/
def jsSlice1m1 (s : String) : String :=
  ⟨(s.data.drop 1).dropLast⟩

/-- JavaScript `String.prototype.toLowerCase`, restricted to the ASCII case
mapping (identifiers in this API are ASCII; `Char.toLower` lowercases
exactly the ASCII uppercase letters). -/
def jsToLowerCase (s : String) : String :=
  ⟨s.data.map Char.toLower⟩

/-- Concatenation of all strings of a list, mirroring the JavaScript loops
that append one chunk per iteration with `+=`. -/
def concat_all : List String → String
  | [] => ""
  | s :: rest => s ++ concat_all rest

/-- Source `type_filter(type)` (statistics route, lines 384-399): the empty
string when `type` is undefined, otherwise a top-level `query.filtered`
filter on the `type` field. -/
def type_filter : Option String → String
  | none => ""
  | some t =>
      "\"query\": \x7b\"filtered\": \x7b\"filter\": \x7b\"type\": \x7b \"value\": \"" ++
        (t ++ "\" \x7d\x7d\x7d\x7d,")

/-- Source `date_filter(from, to)` (statistics route, lines 366-382): the
empty string unless both bounds are defined, otherwise a `range` clause on
the `@timestamp` field. -/
def date_filter : Option String → Option String → String
  | some f, some t =>
      "\x7b \"range\": \x7b\"@timestamp\": \x7b\"from\": \"" ++
        (f ++ ("\",\"to\": \"" ++ (t ++ "\"\x7d\x7d\x7d")))
  | some _, none => ""
  | none, some _ => ""
  | none, none => ""

/-- The three aggregation clauses `aggregation_by`'s loop body appends for
one metric name (statistics route, lines 411-442), each followed by the
trailing comma the loop emits: an extended-statistics clause, a size-1
ascending top-hits clause and a size-1 descending top-hits clause. -/
def agg_chunk (m : String) : String :=
  "\"" ++ (m ++ ("_Stats\" : \x7b\"extended_stats\" : \x7b\"field\" : \"" ++
    (m ++ ("\"\x7d\x7d,\"Minimum_" ++
      (m ++ ("\": \x7b\"top_hits\": \x7b\"size\": 1,\"sort\": [\x7b\"" ++
        (m ++ ("\": \x7b\"order\": \"asc\"\x7d\x7d]\x7d\x7d,\"Maximum_" ++
          (m ++ ("\": \x7b\"top_hits\": \x7b\"size\": 1,\"sort\": [\x7b\"" ++
            (m ++ "\": \x7b\"order\": \"desc\"\x7d\x7d]\x7d\x7d,")))))))))))

/-- Source `aggregation_by(field_name, type)` (statistics route, lines
401-448): open the body with the optional top-level type filter and an
`aggs` object, append the three clauses for each metric, remove the last
character with `slice(0, -1)` (the trailing comma when the metric list is
non-empty, the opening brace of the `aggs` object when it is empty), then
close with two braces. -/
def aggregation_by (field_name : QueryParam) (ty : Option String) : String :=
  jsSlice0m1 ("\x7b" ++ (type_filter ty ++ ("\"aggs\": \x7b" ++
    concat_all ((normalize_metric field_name).map agg_chunk)))) ++ "\x7d\x7d"

/-- The `filter_type` string `filter_and_aggregate_by` accumulates
(statistics route, lines 340-350): an exact `type` clause when `type` is
defined, followed by a `prefix` clause on the `host` field when `host` is
defined. -/
def filter_type_clauses (ty host : Option String) : String :=
  (match ty with
   | none => ""
   | some t => "\x7b \"type\": \x7b \"value\": \"" ++ (t ++ "\" \x7d\x7d,")) ++
  (match host with
   | none => ""
   | some h => "\x7b \"prefix\": \x7b \"host\": \"" ++ (h ++ "\" \x7d\x7d,"))

/-- Source `filter_and_aggregate_by(field_name, from, to, type, host)`
(statistics route, lines 339-364): a single `filtered_stats` aggregation
whose `filter.and` array holds the optional type/host clauses and the date
filter, followed by the per-metric aggregations of `aggregation_by` (called
with `type` undefined) with their outer braces stripped by
`slice(1, -1)`. -/
def filter_and_aggregate_by (field_name : QueryParam)
    (fr toP ty host : Option String) : String :=
  "\x7b\"aggs\": \x7b\"filtered_stats\": \x7b\"filter\": \x7b\"and\": [" ++
    (filter_type_clauses ty host ++
      (date_filter fr toP ++
        ("]\x7d," ++
          (jsSlice1m1 (aggregation_by field_name none) ++ "\x7d\x7d\x7d"))))

/-- The query body `handle_response` sends to the store (statistics route,
lines 268 and 280-282): `filter_and_aggregate_by` when both `from` and `to`
are defined, plain `aggregation_by` otherwise. -/
def stats_body (metric : QueryParam) (ty fr toP host : Option String) : String :=
  if is_defined fr && is_defined toP then
    filter_and_aggregate_by metric fr toP ty host
  else
    aggregation_by metric ty

/-- One per-metric summary object as `handle_response` pushes it onto
`answers` (statistics route, lines 308-330).  Every field is a JavaScript
value; a field left at `undefined` was never assigned on that object and is
dropped from the serialized response. -/
structure Answer where
  workflow : Json
  metric : Json
  statistics : Json
  min : Json
  max : Json
  error : Json

/-- The summary pushed when the hit count is zero (statistics route, lines
318-322): a fresh object carrying only the `error` field; in particular the
`metric`, `statistics`, `min` and `max` fields are never set on it. -/
def empty_metric_answer : Answer :=
  ⟨.undef, .undef, .undef, .undef, .undef, .str "response is empty for the metric"⟩

/-- JavaScript loose equality `x == 0` as applied to the `hits.total` field
(statistics route, line 318).  `total` is always a number in a search
response; `undefined == 0` and `null == 0` are both false in JavaScript,
which the catch-all also returns. -/
def jsEqZero : Json → Bool
  | .num n => n == 0
  | _ => false

/-- The access chain `aggs['Minimum_' + m]['hits']['total']` (statistics
route, line 318). -/
def minimum_total (aggs : Json) (m : String) : Option Json := do
  let node ← aggs.getProp ("Minimum_" ++ m)
  let hits ← node.getProp "hits"
  hits.getProp "total"

/-- The access chain `aggs[key]['hits']['hits'][0]['_source']` (statistics
route, lines 325-326), for `key` one of `Minimum_<m>` / `Maximum_<m>`. -/
def hit0_source (aggs : Json) (key : String) : Option Json := do
  let node ← aggs.getProp key
  let hits ← node.getProp "hits"
  let hitList ← hits.getProp "hits"
  let first ← hitList.getIdx 0
  first.getProp "_source"

/-- The body of `handle_response`'s per-metric loop (statistics route,
lines 308-328), applied to the already-resolved aggregation root: build the
workflow link and metric name, test `Minimum_<m>`'s hit count against zero,
and push either the error-only object or the full summary. -/
def flatten_one (aggs : Json) (href m : String) : Option Answer := do
  let total ← minimum_total aggs m
  if jsEqZero total then
    pure empty_metric_answer
  else do
    let stats ← aggs.getProp (m ++ "_Stats")
    let mn ← hit0_source aggs ("Minimum_" ++ m)
    let mx ← hit0_source aggs ("Maximum_" ++ m)
    pure ⟨.obj [("href", .str href)], .str m, stats, mn, mx, .undef⟩

/-- The aggregation root each loop iteration starts from (statistics route,
lines 310 and 315-317): `response.aggregations`, descending into its
`filtered_stats` node exactly when both `from` and `to` are defined. -/
def flatten_aggs_root (respAggs : Json) (fr toP : Option String) : Option Json :=
  if is_defined fr && is_defined toP then
    respAggs.getProp "filtered_stats"
  else
    some respAggs

/-- The complete flattening loop of `handle_response` (statistics route,
lines 300-330): one pass over the normalised metric list, pushing one
summary per metric onto the `answers` accumulator. -/
def flatten_loop (respAggs : Json) (fr toP : Option String) (href : String) :
    List String → List Answer → Option (List Answer)
  | [], answers => some answers
  | m :: rest, answers => do
    let aggs ← flatten_aggs_root respAggs fr toP
    let a ← flatten_one aggs href m
    flatten_loop respAggs fr toP href rest (answers ++ [a])

/-- The flattener: the loop started on the normalised metric parameter with
an empty `answers` array. -/
def flatten (respAggs : Json) (fr toP : Option String) (href : String)
    (metric : QueryParam) : Option (List Answer) :=
  flatten_loop respAggs fr toP href (normalize_metric metric) []

/-- What `handle_response` does before any store call (statistics route,
lines 260-295): reply immediately, or issue the search with a body. -/
inductive StatsAction where
  | respond (status : Nat) (body : Json) : StatsAction
  | search (index : String) (body : String) : StatsAction

/-- The error body built when the `metric` parameter is missing
(statistics route, lines 271-275). -/
def missing_metric_body : Json :=
  .obj [("error", .obj [("message", .str "parameter metric is missing")])]

/-- The pre-search phase of `handle_response` (statistics route, lines
260-295): when `metric` is undefined, reply with the embedded error object
via `res.json` — which leaves Express's default status 200 — and return
without touching the store; otherwise refresh and search with the built
body. -/
def handle_response_action (index : String) (metric : QueryParam)
    (ty fr toP host : Option String) : StatsAction :=
  if qp_defined metric then
    .search index (stats_body metric ty fr toP host)
  else
    .respond 200 missing_metric_body

/-- Target index of `GET /statistics/:workflowID` (statistics route, lines
93-98): the lowercased workflow id with a wildcard task suffix. -/
def stats_index_all (workflowID : String) : String :=
  jsToLowerCase workflowID ++ "_*"

/-- Target index of `GET /statistics/:workflowID/:taskID` and of
`GET /statistics/:workflowID/:taskID/:experimentID` (statistics route,
lines 171-177 and 251-258): lowercased workflow id and task id. -/
def stats_index_task (workflowID taskID : String) : String :=
  jsToLowerCase workflowID ++ ("_" ++ jsToLowerCase taskID)

/-- The workflow link embedded in every successful summary (statistics
route, lines 262-263 and 311-312): the application base URL plus `/mf`,
then `/workflows/` and the lowercased workflow id. -/
def stats_workflow_href (base workflowID : String) : String :=
  (base ++ "/mf") ++ ("/workflows/" ++ jsToLowerCase workflowID)

/-- Document id used by `GET /configs/:platformID` (configs route, lines
156-165): the lowercased platform id. -/
def config_doc_id (platformID : String) : String :=
  jsToLowerCase platformID

/-- Document id used by `GET /workflows/:id` and `PUT /workflows/:id`
(workflows route, lines 151-159 and 225-234): the lowercased id. -/
def workflow_doc_id (id : String) : String :=
  jsToLowerCase id

/-- JavaScript strict comparison `v !== 'undefined'` against the string
literal `'undefined'` (configs route line 238, workflows route line 237):
false only when `v` is that exact string; every other value — including an
error object, `null` and `undefined` itself — differs from a string. -/
def js_ne_undefined_string : Json → Bool
  | .str s => s != "undefined"
  | _ => true

/-- The index-callback of `PUT /configs/:platformID` (configs route, lines
226-246): status and body of the response, as a function of the store's
`error` callback argument. -/
def put_config_response (base platformID : String) (err : Json) : Nat × Json :=
  let id := jsToLowerCase platformID
  if js_ne_undefined_string err then
    (200, .obj [("href", .str (base ++ ("/mf/configs/" ++ id)))])
  else
    (500, .obj [("error", .str "Could not change the configuration.")])

/-- The index-callback of `PUT /workflows/:id` (workflows route, lines
225-245): status and body of the response, as a function of the store's
`error` callback argument. -/
def put_workflow_response (base id0 : String) (err : Json) : Nat × Json :=
  let id := jsToLowerCase id0
  if js_ne_undefined_string err then
    (200, .obj [("href", .str (base ++ ("/mf/workflows/" ++ id)))])
  else
    (500, .obj [("error", .str "Could not create the workflow.")])

/-- Spec-side model of one named aggregation clause, following the spec's
words: per metric, an extended-statistics clause over the metric's field
and two size-1 top-hits clauses sorted ascending/descending by it. -/
inductive AggClause where
  | extendedStats (name field : String) : AggClause
  | topHits (name : String) (size : Nat) (sortField : String) (ascending : Bool) : AggClause

/-- Serialization of one spec-side clause to the query syntax. -/
def AggClause.render : AggClause → String
  | .extendedStats name field =>
      "\"" ++ (name ++ ("\" : \x7b\"extended_stats\" : \x7b\"field\" : \"" ++
        (field ++ "\"\x7d\x7d")))
  | .topHits name size sortField ascending =>
      "\"" ++ (name ++ ("\": \x7b\"top_hits\": \x7b\"size\": " ++
        (toString size ++ (",\"sort\": [\x7b\"" ++
          (sortField ++ ("\": \x7b\"order\": \"" ++
            ((if ascending then "asc" else "desc") ++ "\"\x7d\x7d]\x7d\x7d")))))))

/-- Spec-side: the three clauses required for metric `m`, named
deterministically `<m>_Stats`, `Minimum_<m>` and `Maximum_<m>`. -/
def metricClauses (m : String) : List AggClause :=
  [.extendedStats (m ++ "_Stats") m,
   .topHits ("Minimum_" ++ m) 1 m true,
   .topHits ("Maximum_" ++ m) 1 m false]

/-- Spec-side: the rendered clauses of a metric list, three per metric, in
input order, and nothing else. -/
def clause_strings : List String → List String
  | [] => []
  | m :: rest => (metricClauses m).map AggClause.render ++ clause_strings rest

/-- Comma-separated join (no trailing comma). -/
def joinComma : List String → String
  | [] => ""
  | [s] => s
  | s :: rest => s ++ ("," ++ joinComma rest)

/-- Join in which every element is followed by a comma, the shape the
builder's loop produces before `slice(0, -1)`. -/
def trailComma : List String → String
  | [] => ""
  | s :: rest => s ++ ("," ++ trailComma rest)

/-- Spec-side: the exact `type` clause of the nested filter's `and` array. -/
def spec_type_clause : Option String → String
  | none => ""
  | some t => "\x7b \"type\": \x7b \"value\": \"" ++ (t ++ "\" \x7d\x7d,")

/-- Spec-side: the `prefix` clause on the `host` field of the nested
filter's `and` array. -/
def spec_host_clause : Option String → String
  | none => ""
  | some h => "\x7b \"prefix\": \x7b \"host\": \"" ++ (h ++ "\" \x7d\x7d,")

/-- Spec-side: the inclusive `[from, to]` range clause on the timestamp
field of the nested filter's `and` array. -/
def spec_range_clause (f t : String) : String :=
  "\x7b \"range\": \x7b\"@timestamp\": \x7b\"from\": \"" ++
    (f ++ ("\",\"to\": \"" ++ (t ++ "\"\x7d\x7d\x7d")))

/-- Spec-side: the top-level query filter carrying the optional exact type
filter when no time range is supplied. -/
def spec_query_clause : Option String → String
  | none => ""
  | some t =>
      "\"query\": \x7b\"filtered\": \x7b\"filter\": \x7b\"type\": \x7b \"value\": \"" ++
        (t ++ "\" \x7d\x7d\x7d\x7d,")

/-- Spec-side: the whole query body when no time range is supplied — the
optional top-level type filter and the per-metric clauses at the root of
the `aggs` object. -/
def spec_root_body (ty : Option String) (ms : List String) : String :=
  "\x7b" ++ (spec_query_clause ty ++ ("\"aggs\": \x7b" ++
    (joinComma (clause_strings ms) ++ "\x7d\x7d")))

/-- Spec-side: the whole query body when a time range is supplied — a
single outer `filtered_stats` aggregation whose `and` filter carries the
optional type clause, the optional host-prefix clause and the range clause,
with every per-metric clause nested inside it. -/
def spec_filtered_body (ty host : Option String) (f t : String)
    (ms : List String) : String :=
  "\x7b\"aggs\": \x7b\"filtered_stats\": \x7b\"filter\": \x7b\"and\": [" ++
    (spec_type_clause ty ++ (spec_host_clause host ++ (spec_range_clause f t ++
      ("]\x7d," ++ ("\"aggs\": \x7b" ++
        (joinComma (clause_strings ms) ++ "\x7d\x7d\x7d\x7d"))))))

theorem jsSlice0m1_comma (p : String) : jsSlice0m1 (p ++ ",") = p := by
  apply String.ext
  show (p.data ++ [',']).dropLast = p.data
  exact List.dropLast_concat ..

theorem jsSlice1m1_brace (mid : String) :
    jsSlice1m1 ("\x7b" ++ (mid ++ "\x7d")) = mid := by
  apply String.ext
  show (mid.data ++ ['\x7d']).dropLast = mid.data
  exact List.dropLast_concat ..

theorem append_reassoc_comma (a b c d : String) :
    a ++ (b ++ (c ++ (d ++ ","))) = (a ++ (b ++ (c ++ d))) ++ "," := by
  simp only [String.append_assoc]

theorem chunk_eq (m : String) :
    agg_chunk m = trailComma ((metricClauses m).map AggClause.render) := by
  simp only [agg_chunk, metricClauses, AggClause.render, List.map, trailComma,
    String.append_assoc, if_true, if_false]
  rfl

theorem trail_append (l1 l2 : List String) :
    trailComma (l1 ++ l2) = trailComma l1 ++ trailComma l2 := by
  induction l1 with
  | nil => rfl
  | cons s rest ih =>
      simp only [List.cons_append, List.append_eq, trailComma, ih,
        String.append_assoc]

theorem concat_trail (ms : List String) :
    concat_all (ms.map agg_chunk) = trailComma (clause_strings ms) := by
  induction ms with
  | nil => rfl
  | cons m rest ih =>
      simp only [List.map, concat_all, clause_strings, chunk_eq, ih, trail_append]

theorem trail_join (l : List String) (h : l ≠ []) :
    trailComma l = joinComma l ++ "," := by
  induction l with
  | nil => exact absurd rfl h
  | cons s rest ih =>
      cases rest with
      | nil => rfl
      | cons t r =>
          calc trailComma (s :: t :: r)
              = s ++ ("," ++ trailComma (t :: r)) := rfl
            _ = s ++ ("," ++ (joinComma (t :: r) ++ ",")) := by
                  rw [ih (List.cons_ne_nil t r)]
            _ = joinComma (s :: t :: r) ++ "," := by
                  simp only [joinComma, String.append_assoc]

theorem clause_strings_ne (ms : List String) (h : ms ≠ []) :
    clause_strings ms ≠ [] := by
  cases ms with
  | nil => exact absurd rfl h
  | cons m rest => simp [clause_strings, metricClauses]

/-- Normal form of the source query builder on a non-empty metric list: the
trailing-comma loop followed by `slice(0, -1)` amounts to a comma-separated
join of exactly the spec-side clauses. -/
theorem agg_norm (qp : QueryParam) (ty : Option String)
    (h : normalize_metric qp ≠ []) :
    aggregation_by qp ty =
      "\x7b" ++ (type_filter ty ++ ("\"aggs\": \x7b" ++
        (joinComma (clause_strings (normalize_metric qp)) ++ "\x7d\x7d"))) := by
  unfold aggregation_by
  rw [concat_trail, trail_join _ (clause_strings_ne _ h),
    append_reassoc_comma, jsSlice0m1_comma]
  simp only [String.append_assoc]

theorem filter_type_clauses_eq (ty host : Option String) :
    filter_type_clauses ty host = spec_type_clause ty ++ spec_host_clause host := by
  cases ty <;> cases host <;> rfl

/-- `slice(1, -1)` of the host-free, type-free builder output strips its
outer braces, leaving the per-metric clauses inside a bare `aggs` object. -/
theorem slice_inner (qp : QueryParam) (h : normalize_metric qp ≠ []) :
    jsSlice1m1 (aggregation_by qp none) =
      "\"aggs\": \x7b" ++
        (joinComma (clause_strings (normalize_metric qp)) ++ "\x7d") := by
  rw [agg_norm qp none h,
    show ("\x7b" : String) ++ (type_filter none ++ ("\"aggs\": \x7b" ++
        (joinComma (clause_strings (normalize_metric qp)) ++ "\x7d\x7d"))) =
      "\x7b" ++ (("\"aggs\": \x7b" ++
        (joinComma (clause_strings (normalize_metric qp)) ++ "\x7d")) ++ "\x7d") from by
      simp only [type_filter, String.append_assoc]; rfl]
  exact jsSlice1m1_brace _

/-- The nested builder refines the spec-side filtered body. -/
theorem filter_norm (qp : QueryParam) (ty host : Option String) (f t : String)
    (h : normalize_metric qp ≠ []) :
    filter_and_aggregate_by qp (some f) (some t) ty host =
      spec_filtered_body ty host f t (normalize_metric qp) := by
  unfold filter_and_aggregate_by spec_filtered_body
  rw [slice_inner qp h, filter_type_clauses_eq]
  simp only [String.append_assoc]
  rfl

/-- The root builder refines the spec-side root body. -/
theorem root_norm (qp : QueryParam) (ty : Option String)
    (h : normalize_metric qp ≠ []) :
    aggregation_by qp ty = spec_root_body ty (normalize_metric qp) := by
  rw [agg_norm qp ty h]
  unfold spec_root_body
  cases ty <;> rfl

/-- Claim C1: for a non-empty metric list and no filters, the built query
is exactly the comma-separated join of, per metric and in order, an
extended-statistics clause named `<m>_Stats`, a size-1 ascending top-hits
clause named `Minimum_<m>` and a size-1 descending top-hits clause named
`Maximum_<m>` — and no other clauses (`clause_strings` enumerates exactly
those three clauses per metric). -/
theorem aggregation_by_clauses_spec (ms : List String) (h : ms ≠ []) :
    aggregation_by (.arr ms) none =
      "\x7b\"aggs\": \x7b" ++ (joinComma (clause_strings ms) ++ "\x7d\x7d") := by
  rw [agg_norm (.arr ms) none h]
  rfl

theorem aggregation_by_clauses_spec_witness :
    (["cpu"] : List String) ≠ [] ∧
    aggregation_by (.arr ["cpu"]) none =
      "\x7b\"aggs\": \x7b" ++ (joinComma (clause_strings ["cpu"]) ++ "\x7d\x7d") :=
  ⟨by decide, aggregation_by_clauses_spec ["cpu"] (by decide)⟩

/-- Claim C7: the spec requires the query builder to fail with an
`InvalidQuery` error on an empty metric list; the code does not fail — it
returns this malformed body, in which `slice(0, -1)` has removed the
opening brace of the `aggs` object instead of a trailing comma. -/
theorem aggregation_by_empty_metrics :
    aggregation_by (.arr []) none = "\x7b\"aggs\": \x7d\x7d" := rfl

/-- Claim C2: with both `from` and `to` supplied the built body nests every
per-metric clause inside the single outer `filtered_stats` filter
aggregation and the flattener descends into the `filtered_stats` node;
with no time range the per-metric clauses sit at the query root behind the
optional top-level type filter and the flattener reads the root
aggregations directly. -/
theorem stats_body_time_range_paths (qp : QueryParam) (ty host : Option String)
    (f t : String) (respAggs : Json) (h : normalize_metric qp ≠ []) :
    stats_body qp ty (some f) (some t) host =
      spec_filtered_body ty host f t (normalize_metric qp) ∧
    flatten_aggs_root respAggs (some f) (some t) =
      respAggs.getProp "filtered_stats" ∧
    stats_body qp ty none none host = spec_root_body ty (normalize_metric qp) ∧
    flatten_aggs_root respAggs none none = some respAggs := by
  refine ⟨?_, rfl, ?_, rfl⟩
  · show filter_and_aggregate_by qp (some f) (some t) ty host = _
    exact filter_norm qp ty host f t h
  · show aggregation_by qp ty = _
    exact root_norm qp ty h

theorem stats_body_time_range_paths_witness :
    normalize_metric (.str "m") ≠ [] ∧
    stats_body (.str "m") (some "perf") (some "F") (some "T") (some "n01") =
      spec_filtered_body (some "perf") (some "n01") "F" "T"
        (normalize_metric (.str "m")) :=
  ⟨by decide,
   (stats_body_time_range_paths (.str "m") (some "perf") (some "n01") "F" "T"
     (Json.obj []) (by decide)).1⟩

/-- Claim C4 counterexample: a request with `host=node01` and no time range
builds exactly the same body as the request with no host at all — the body
is the unfiltered aggregation query and carries no host restriction. -/
theorem stats_body_host_ignored_cex :
    stats_body (.str "A") none none none (some "node01") =
      stats_body (.str "A") none none none none ∧
    stats_body (.str "A") none none none (some "node01") =
      "\x7b\"aggs\": \x7b\"A_Stats\" : \x7b\"extended_stats\" : \x7b\"field\" : \"A\"\x7d\x7d,\"Minimum_A\": \x7b\"top_hits\": \x7b\"size\": 1,\"sort\": [\x7b\"A\": \x7b\"order\": \"asc\"\x7d\x7d]\x7d\x7d,\"Maximum_A\": \x7b\"top_hits\": \x7b\"size\": 1,\"sort\": [\x7b\"A\": \x7b\"order\": \"desc\"\x7d\x7d]\x7d\x7d\x7d\x7d" :=
  ⟨rfl, rfl⟩

/-- Claim C4 (amended): the host prefix filter is applied only when both
`from` and `to` are supplied, as a clause of the nested `filtered_stats`
and-filter; when no time range is supplied the host parameter is ignored
and the built body is identical to the host-free body. -/
theorem host_filter_only_with_time_range (qp : QueryParam) (ty : Option String)
    (f t h0 : String) (h : normalize_metric qp ≠ []) :
    filter_and_aggregate_by qp (some f) (some t) ty (some h0) =
      spec_filtered_body ty (some h0) f t (normalize_metric qp) ∧
    stats_body qp ty none none (some h0) = stats_body qp ty none none none :=
  ⟨filter_norm qp ty (some h0) f t h, rfl⟩

theorem host_filter_only_with_time_range_witness :
    normalize_metric (.str "A") ≠ [] ∧
    stats_body (.str "A") none none none (some "node01") =
      stats_body (.str "A") none none none none :=
  ⟨by decide,
   (host_filter_only_with_time_range (.str "A") none "F" "T" "node01"
     (by decide)).2⟩

/-- Claim C3 (amended): the flattener inspects `Minimum_<m>`'s total hit
count; when it is zero it emits the error-only object — which carries no
`metric`, `statistics`, `min` or `max` field — and when it is non-zero it
emits the full summary with the `<m>_Stats` block, the sole hits of
`Minimum_<m>` / `Maximum_<m>` and the workflow link, with no `error`
field; never both. -/
theorem flatten_one_spec (aggs : Json) (href m : String) (t : Int)
    (st mn mx : Json)
    (htot : minimum_total aggs m = some (.num t))
    (hst : aggs.getProp (m ++ "_Stats") = some st)
    (hmn : hit0_source aggs ("Minimum_" ++ m) = some mn)
    (hmx : hit0_source aggs ("Maximum_" ++ m) = some mx) :
    flatten_one aggs href m =
      some (if t = 0 then empty_metric_answer
            else ⟨.obj [("href", .str href)], .str m, st, mn, mx, .undef⟩) := by
  unfold flatten_one
  rw [htot]
  by_cases h0 : t = 0
  · subst h0
    simp [jsEqZero]
  · simp [jsEqZero, h0, hst, hmn, hmx]

/-- An aggregation result for metric `cpu` with three hits. -/
def demo_stats : Json :=
  .obj [("count", .num 3), ("min", .num 1), ("max", .num 9), ("avg", .num 4)]

def demo_min_src : Json :=
  .obj [("host", .str "n1"), ("cpu", .num 1)]

def demo_max_src : Json :=
  .obj [("host", .str "n2"), ("cpu", .num 9)]

def demo_aggs : Json :=
  .obj [("cpu_Stats", demo_stats),
        ("Minimum_cpu", .obj [("hits", .obj [("total", .num 3),
          ("hits", .arr [.obj [("_source", demo_min_src)]])])]),
        ("Maximum_cpu", .obj [("hits", .obj [("total", .num 3),
          ("hits", .arr [.obj [("_source", demo_max_src)]])])])]

theorem flatten_one_spec_witness :
    flatten_one demo_aggs "H" "cpu" =
      some (if (3 : Int) = 0 then empty_metric_answer
            else ⟨.obj [("href", .str "H")], .str "cpu", demo_stats,
                  demo_min_src, demo_max_src, .undef⟩) :=
  flatten_one_spec demo_aggs "H" "cpu" 3 demo_stats demo_min_src demo_max_src
    rfl rfl rfl rfl

/-- An aggregation result for metric `cpu` with a zero hit count. -/
def empty_aggs : Json :=
  .obj [("Minimum_cpu", .obj [("hits", .obj [("total", .num 0),
    ("hits", .arr [])])])]

/-- Claim C3 counterexample: on a zero-hit result the emitted summary is
the error-only object; its `metric` field is `undefined`, not the metric
name `cpu` the claim requires the summary to carry. -/
theorem flatten_one_empty_cex :
    flatten_one empty_aggs "H" "cpu" = some empty_metric_answer ∧
    empty_metric_answer.metric = Json.undef ∧
    Json.undef ≠ Json.str "cpu" :=
  ⟨rfl, rfl, fun h => Json.noConfusion h⟩

/-- Per-metric summary in the Option monad: sequence one summary per
element, in order. -/
def optMapM (f : String → Option Answer) : List String → Option (List Answer)
  | [] => some []
  | m :: rest => do
      let a ← f m
      let l ← optMapM f rest
      pure (a :: l)

theorem flatten_loop_mapM (respAggs : Json) (fr toP : Option String)
    (href : String) :
    ∀ (ms : List String) (acc : List Answer),
      flatten_loop respAggs fr toP href ms acc =
        (optMapM (fun m => (flatten_aggs_root respAggs fr toP).bind
            (fun aggs => flatten_one aggs href m)) ms).map (fun l => acc ++ l)
  | [], acc => by simp [flatten_loop, optMapM]
  | m :: rest, acc => by
      cases hroot : flatten_aggs_root respAggs fr toP with
      | none => simp [flatten_loop, optMapM, hroot]
      | some g =>
          cases hone : flatten_one g href m with
          | none => simp [flatten_loop, optMapM, hroot, hone]
          | some a =>
              have ih := flatten_loop_mapM respAggs fr toP href rest (acc ++ [a])
              simp [flatten_loop, optMapM, hroot, hone, ih]
              cases optMapM (fun m => flatten_one g href m) rest <;> simp

theorem optMapM_length (f : String → Option Answer) :
    ∀ (ms : List String) (l : List Answer),
      optMapM f ms = some l → l.length = ms.length
  | [], l, h => by simp [optMapM] at h; subst h; rfl
  | m :: rest, l, h => by
      cases hf : f m with
      | none => simp [optMapM, hf] at h
      | some a =>
          cases hrest : optMapM f rest with
          | none => simp [optMapM, hf, hrest] at h
          | some l2 =>
              have hlen := optMapM_length f rest l2 hrest
              simp [optMapM, hf, hrest] at h
              subst h
              simp [hlen]

theorem optMapM_get (f : String → Option Answer) :
    ∀ (ms : List String) (l : List Answer), optMapM f ms = some l →
      ∀ i : Nat, l[i]? = (ms[i]?).bind f
  | [], l, h, i => by simp [optMapM] at h; subst h; simp
  | m :: rest, l, h, i => by
      cases hf : f m with
      | none => simp [optMapM, hf] at h
      | some a =>
          cases hrest : optMapM f rest with
          | none => simp [optMapM, hf, hrest] at h
          | some l2 =>
              have ih := optMapM_get f rest l2 hrest
              simp [optMapM, hf, hrest] at h
              subst h
              cases i with
              | zero => simp [hf]
              | succ j => simpa using ih j

/-- Claim C5: when the flattener succeeds, it emits exactly one summary per
requested metric, in the order of the metric list — position `i` of the
output is the summary of position `i` of the input, so duplicate metric
names yield repeated output entries. -/
theorem flatten_order (respAggs : Json) (fr toP : Option String)
    (href : String) (metric : QueryParam) (l : List Answer)
    (h : flatten respAggs fr toP href metric = some l) :
    l.length = (normalize_metric metric).length ∧
    ∀ i : Nat, l[i]? = ((normalize_metric metric)[i]?).bind
      (fun m => (flatten_aggs_root respAggs fr toP).bind
        (fun aggs => flatten_one aggs href m)) := by
  have hl := flatten_loop_mapM respAggs fr toP href (normalize_metric metric) []
  unfold flatten at h
  rw [hl] at h
  cases hm : optMapM (fun m => (flatten_aggs_root respAggs fr toP).bind
      (fun aggs => flatten_one aggs href m)) (normalize_metric metric) with
  | none => rw [hm] at h; simp at h
  | some l2 =>
      rw [hm] at h
      simp at h
      subst h
      exact ⟨optMapM_length _ _ _ hm, fun i => optMapM_get _ _ _ hm i⟩

/-- The summary `flatten` emits for each copy of `cpu` in the demo data. -/
def demo_answer : Answer :=
  ⟨.obj [("href", .str "H")], .str "cpu", demo_stats, demo_min_src,
   demo_max_src, .undef⟩

theorem flatten_order_witness :
    ([demo_answer, demo_answer] : List Answer).length =
      (normalize_metric (.arr ["cpu", "cpu"])).length :=
  (flatten_order demo_aggs none none "H" (.arr ["cpu", "cpu"])
    [demo_answer, demo_answer] rfl).1

theorem flatten_aggs_root_of_not_both (respAggs : Json) (fr toP : Option String)
    (hff : (is_defined fr && is_defined toP) = false) :
    flatten_aggs_root respAggs fr toP = some respAggs := by
  unfold flatten_aggs_root
  rw [hff]
  rfl

theorem flatten_loop_root_congr (respAggs : Json) (fr toP fr2 toP2 : Option String)
    (href : String)
    (hr : flatten_aggs_root respAggs fr toP = flatten_aggs_root respAggs fr2 toP2) :
    ∀ (ms : List String) (acc : List Answer),
      flatten_loop respAggs fr toP href ms acc =
        flatten_loop respAggs fr2 toP2 href ms acc
  | [], _ => rfl
  | m :: rest, acc => by
      unfold flatten_loop
      rw [hr]
      cases flatten_aggs_root respAggs fr2 toP2 with
      | none => rfl
      | some g =>
          show (flatten_one g href m).bind
              (fun a => flatten_loop respAggs fr toP href rest (acc ++ [a])) =
            (flatten_one g href m).bind
              (fun a => flatten_loop respAggs fr2 toP2 href rest (acc ++ [a]))
          cases flatten_one g href m with
          | none => rfl
          | some a =>
              exact flatten_loop_root_congr respAggs fr toP fr2 toP2 href hr
                rest (acc ++ [a])

/-- Claim C6: when exactly one of `from`/`to` is supplied, both the built
query body and the flattening are identical to the case in which neither is
supplied — no time filter, no `filtered_stats` nesting, root aggregations
read directly. -/
theorem single_bound_like_none (metric : QueryParam) (ty host : Option String)
    (fr toP : Option String) (respAggs : Json) (href : String)
    (h : is_defined fr ≠ is_defined toP) :
    stats_body metric ty fr toP host = stats_body metric ty none none host ∧
    flatten_aggs_root respAggs fr toP = some respAggs ∧
    flatten respAggs fr toP href metric = flatten respAggs none none href metric := by
  have hff : (is_defined fr && is_defined toP) = false := by
    cases hf : is_defined fr <;> cases ht : is_defined toP <;> simp_all
  refine ⟨?_, flatten_aggs_root_of_not_both respAggs fr toP hff, ?_⟩
  · unfold stats_body
    rw [hff]
    rfl
  · unfold flatten
    exact flatten_loop_root_congr respAggs fr toP none none href
      (by rw [flatten_aggs_root_of_not_both respAggs fr toP hff]; rfl)
      (normalize_metric metric) []

theorem single_bound_like_none_witness :
    is_defined (some "F") ≠ is_defined none ∧
    stats_body (.str "m") none (some "F") none none =
      stats_body (.str "m") none none none none :=
  ⟨by decide,
   (single_bound_like_none (.str "m") none none (some "F") none
     (Json.obj []) "H" (by decide)).1⟩

/-- Claim C8: when the `metric` query parameter is absent the statistics
handler replies at once — before any store refresh or search — with the
embedded error object carrying the message `parameter metric is missing`,
and the HTTP status stays at Express's default 200. -/
theorem missing_metric_responds_200 (index : String)
    (ty fr toP host : Option String) :
    handle_response_action index .undef ty fr toP host =
      .respond 200 missing_metric_body := rfl

/-- Claim C9: the PUT handlers of configs and workflows compare the store's
`error` callback value against the string literal `'undefined'`; for every
value other than that exact string — error objects and `null`/`undefined`
alike — the guard passes and the handler answers 200 with the `href` body,
so the 500 error branch is unreachable. -/
theorem put_handlers_ignore_store_error (base p i : String) (e : Json)
    (h : e ≠ Json.str "undefined") :
    put_config_response base p e =
      (200, .obj [("href", .str (base ++ ("/mf/configs/" ++ jsToLowerCase p)))]) ∧
    put_workflow_response base i e =
      (200, .obj [("href", .str (base ++ ("/mf/workflows/" ++ jsToLowerCase i)))]) := by
  have hb : js_ne_undefined_string e = true := by
    cases e with
    | str s =>
        have hs : s ≠ "undefined" := fun hh => h (by rw [hh])
        simp [js_ne_undefined_string, hs]
    | undef => rfl
    | null => rfl
    | num n => rfl
    | arr l => rfl
    | obj fs => rfl
  constructor <;> simp [put_config_response, put_workflow_response, hb]

theorem put_handlers_ignore_store_error_witness :
    put_config_response "S" "P1" (Json.obj [("error", Json.str "boom")]) =
      (200, .obj [("href", .str ("S" ++ ("/mf/configs/" ++ jsToLowerCase "P1")))]) ∧
    put_workflow_response "S" "W1" (Json.obj [("error", Json.str "boom")]) =
      (200, .obj [("href", .str ("S" ++ ("/mf/workflows/" ++ jsToLowerCase "W1")))]) :=
  put_handlers_ignore_store_error "S" "P1" "W1"
    (Json.obj [("error", Json.str "boom")]) (fun hh => Json.noConfusion hh)

/-- Claim C10: every handler lowercases its identifier path segments before
deriving the store index / document id and before embedding them in the
returned href, so identifiers differing only in ASCII letter case address
the same documents and produce the same links. -/
theorem handlers_case_insensitive (w1 w2 t1 t2 p1 p2 i1 i2 base : String)
    (hw : jsToLowerCase w1 = jsToLowerCase w2)
    (ht : jsToLowerCase t1 = jsToLowerCase t2)
    (hp : jsToLowerCase p1 = jsToLowerCase p2)
    (hi : jsToLowerCase i1 = jsToLowerCase i2) :
    stats_index_all w1 = stats_index_all w2 ∧
    stats_index_task w1 t1 = stats_index_task w2 t2 ∧
    stats_workflow_href base w1 = stats_workflow_href base w2 ∧
    config_doc_id p1 = config_doc_id p2 ∧
    put_config_response base p1 Json.null = put_config_response base p2 Json.null ∧
    workflow_doc_id i1 = workflow_doc_id i2 ∧
    put_workflow_response base i1 Json.null = put_workflow_response base i2 Json.null := by
  simp only [stats_index_all, stats_index_task, stats_workflow_href,
    config_doc_id, workflow_doc_id, put_config_response, put_workflow_response,
    hw, ht, hp, hi, and_self, true_and]

theorem handlers_case_insensitive_witness :
    jsToLowerCase "MS2" = jsToLowerCase "ms2" ∧
    stats_index_all "MS2" = stats_index_all "ms2" :=
  ⟨rfl,
   (handlers_case_insensitive "MS2" "ms2" "T1" "t1" "Node" "node" "Wf" "wf" "S"
     rfl rfl rfl rfl).1⟩
